import Mathlib

/-!
Shallow embedding of the Vanguard Cargo frontend authentication layer.

The repository is a browser frontend whose auth operations are thin
wrappers around an external hosted SDK (session management, sign-in,
sign-up, password reset) and a relational store reached through remote
procedure calls.  Every external call is modelled by an oracle value in
an environment record: a call either resolves to a `{data, error}` pair
or throws.  The service methods and UI handlers are then pure functions
from such an environment to the value they return together with a trace
of the external calls they performed, mirroring the control flow of the
TypeScript source line by line.
-/

namespace VanguardCargo

/-- Outcome of one awaited external call: a resolved value, or a thrown
exception carrying an optional message (the message is present when the
thrown value is an Error object). -/
inductive JsRes (α : Type) where
  | ok (v : α) : JsRes α
  | thrown (msg : Option String) : JsRes α
deriving DecidableEq

/-- JavaScript `a || b` on an optional string: null, undefined and the
empty string are falsy and select the default. -/
def jsOrStr (a : Option String) (b : String) : String :=
  match a with
  | some s => if s = "" then b else s
  | none => b

/-- JavaScript truthiness of an optional string: null, undefined and the
empty string are falsy. -/
def jsTruthyOptStr : Option String → Bool
  | none => false
  | some s => if s = "" then false else true

/-- Embedding of `String.prototype.toLowerCase` (character-wise lowering). -/
def lowerStr (s : String) : String :=
  String.mk (s.data.map Char.toLower)

/-- Whitespace characters recognised by the embedding of
`String.prototype.trim`. -/
def isJsSpace (c : Char) : Bool :=
  c = ' ' || c = '\t' || c = '\n' || c = '\r'

/-- Embedding of `String.prototype.trim`: drop leading and trailing
whitespace. -/
def jsTrim (s : String) : String :=
  String.mk (((s.data.dropWhile isJsSpace).reverse.dropWhile isJsSpace).reverse)

/-! ### authService.signUp and cleanupOrphanedAuthUser -/

/-- The user object held inside the SDK auth responses. -/
structure SbAuthUser where
  id : String
  email : Option String
deriving DecidableEq

/-- A typed error object returned by the SDK (`AuthError`). -/
structure AuthErrorT where
  message : String
  name : String
deriving DecidableEq

/-- Resolved value of `supabase.auth.signUp`: `{ data: { user }, error }`. -/
structure SignUpSdkRes where
  user : Option SbAuthUser
  error : Option AuthErrorT
deriving DecidableEq

/-- The JSON object returned by the `create_user_profile_secure` RPC
(`profileResult` in the source); it may be null. -/
structure RpcProfileResult where
  success : Bool
  error : Option String
deriving DecidableEq

/-- Resolved value of the `create_user_profile_secure` RPC call:
`{ data: profileResult, error: rpcError }` with the error reduced to its
message. -/
structure RpcRes where
  result : Option RpcProfileResult
  error : Option String
deriving DecidableEq

/-- Environment of external outcomes consumed by one run of
`AuthService.signUp`. -/
structure SignUpEnv where
  profileQueryRes : JsRes (Option Unit)
  authSignUpRes : JsRes SignUpSdkRes
  rpcRes : JsRes RpcRes
deriving DecidableEq

/-- External operations that a `signUp` run can perform.  The auth-user
deletion operation is listed so that its absence from every trace can be
stated. -/
inductive ExtCall where
  | profileQuery : ExtCall
  | authSignUp : ExtCall
  | createProfileRpc : ExtCall
  | deleteAuthUser : ExtCall
deriving DecidableEq

/-- The `{ user, error }` pair returned by `signUp` (and `signIn`). -/
structure SignUpReturn where
  user : Option SbAuthUser
  error : Option AuthErrorT
deriving DecidableEq

/-- Model of `AuthService.cleanupOrphanedAuthUser`: queries the users table for a
profile with the given email; every branch (profile found, profile
missing, query threw) returns false and performs no cleanup. -/
def cleanupOrphanedAuthUser (q : JsRes (Option Unit)) : Bool :=
  match q with
  | .ok (some _) => false
  | .ok none => false
  | .thrown _ => false

/-- Model of `AuthService.signUp`: runs the orphan check, calls the SDK sign-up,
then the profile-creation RPC, returning the `{ user, error }` pair and
the trace of external calls performed. -/
def signUpRun (env : SignUpEnv) : SignUpReturn × List ExtCall :=
  let _ := cleanupOrphanedAuthUser env.profileQueryRes
  match env.authSignUpRes with
  | .thrown _ =>
      (⟨none, some ⟨"Registration failed", "RegistrationError"⟩⟩,
       [ExtCall.profileQuery, ExtCall.authSignUp])
  | .ok authData =>
      if authData.error.isSome || authData.user.isNone then
        (⟨none, authData.error⟩, [ExtCall.profileQuery, ExtCall.authSignUp])
      else
        match env.rpcRes with
        | .thrown _ =>
            (⟨none, some ⟨"Registration failed during profile creation",
                          "ProfileCreationError"⟩⟩,
             [ExtCall.profileQuery, ExtCall.authSignUp, ExtCall.createProfileRpc])
        | .ok r =>
            match r.error with
            | some msg =>
                (⟨none, some ⟨"Registration failed: " ++ msg,
                              "ProfileCreationError"⟩⟩,
                 [ExtCall.profileQuery, ExtCall.authSignUp, ExtCall.createProfileRpc])
            | none =>
                match r.result with
                | some pr =>
                    if pr.success then
                      (⟨authData.user, none⟩,
                       [ExtCall.profileQuery, ExtCall.authSignUp,
                        ExtCall.createProfileRpc])
                    else
                      (⟨none, some ⟨"Registration failed: " ++
                                      jsOrStr pr.error "Unknown error",
                                    "ProfileCreationError"⟩⟩,
                       [ExtCall.profileQuery, ExtCall.authSignUp,
                        ExtCall.createProfileRpc])
                | none =>
                    (⟨none, some ⟨"Registration failed: Unknown error",
                                  "ProfileCreationError"⟩⟩,
                     [ExtCall.profileQuery, ExtCall.authSignUp,
                      ExtCall.createProfileRpc])

/-- The external sign-up call succeeded: it resolved with no error and a
non-null user. -/
def signUpAuthOkB (env : SignUpEnv) : Bool :=
  match env.authSignUpRes with
  | .ok a => a.error.isNone && a.user.isSome
  | .thrown _ => false

/-- The profile-creation RPC succeeded: it resolved with no error and a
non-null result whose success flag is true. -/
def signUpRpcOkB (env : SignUpEnv) : Bool :=
  match env.rpcRes with
  | .ok r =>
      r.error.isNone &&
        (match r.result with
         | some pr => pr.success
         | none => false)
  | .thrown _ => false

/-- Environment where the SDK sign-up resolves with neither a user nor an
error; `signUp` then passes the null error through. -/
def signUpNullNullEnv : SignUpEnv :=
  ⟨.ok none, .ok ⟨none, none⟩, .ok ⟨none, none⟩⟩

/-- Environment where the auth user is created but the profile RPC
reports an error. -/
def signUpRpcFailEnv : SignUpEnv :=
  ⟨.ok none,
   .ok ⟨some ⟨"user-1", some "a@b.example"⟩, none⟩,
   .ok ⟨none, some "duplicate key"⟩⟩

/-! ### authService.signIn and the fire-and-forget background calls -/

/-- Resolved value of `supabase.auth.signInWithPassword`. -/
structure SignInSdkRes where
  user : Option SbAuthUser
  sessionToken : Option String
  error : Option AuthErrorT
deriving DecidableEq

/-- Outcomes of the three fire-and-forget background operations issued by
`signIn`; each runs inside its own async block that swallows failures. -/
structure BgOutcomes where
  logOutcome : JsRes Unit
  lastLoginOutcome : JsRes Unit
  welcomeEmailOutcome : JsRes Unit
deriving DecidableEq

/-- The three background operations. -/
inductive BgCall where
  | logAuthEvent : BgCall
  | updateLastLogin : BgCall
  | sendWelcomeEmail : BgCall
deriving DecidableEq

/-- Whether a given background operation failed in the given outcome
environment (the failure is caught inside the fire-and-forget block). -/
def bgFailed (bg : BgOutcomes) : BgCall → Bool
  | .logAuthEvent =>
      match bg.logOutcome with
      | .thrown _ => true
      | .ok _ => false
  | .updateLastLogin =>
      match bg.lastLoginOutcome with
      | .thrown _ => true
      | .ok _ => false
  | .sendWelcomeEmail =>
      match bg.welcomeEmailOutcome with
      | .thrown _ => true
      | .ok _ => false

/-- Observable effects of one `AuthService.signIn` run: the returned
`{ user, error }` pair, which background calls were fired, which of the
fired calls failed (their failures are swallowed, surfacing at most as a
development-mode console warning), and which background calls were
awaited before `signIn` returned. -/
structure SignInRunOut where
  result : SignUpReturn
  firedBackground : List BgCall
  swallowedFailures : List BgCall
  awaitedBackground : List BgCall
deriving DecidableEq

/-- Model of `AuthService.signIn`: one awaited SDK call, then fire-and-forget
background calls whose outcomes never reach the returned value. -/
def signInRun (sdk : JsRes SignInSdkRes) (bg : BgOutcomes) : SignInRunOut :=
  match sdk with
  | .thrown _ =>
      { result := ⟨none, some ⟨"Sign in failed", "SignInError"⟩⟩
        firedBackground := [BgCall.logAuthEvent]
        swallowedFailures := [BgCall.logAuthEvent].filter (bgFailed bg)
        awaitedBackground := [] }
  | .ok d =>
      if d.error.isSome || d.user.isNone then
        { result := ⟨none, d.error⟩
          firedBackground := [BgCall.logAuthEvent]
          swallowedFailures := [BgCall.logAuthEvent].filter (bgFailed bg)
          awaitedBackground := [] }
      else
        { result := ⟨d.user, none⟩
          firedBackground :=
            [BgCall.logAuthEvent, BgCall.updateLastLogin, BgCall.sendWelcomeEmail]
          swallowedFailures :=
            [BgCall.logAuthEvent, BgCall.updateLastLogin,
             BgCall.sendWelcomeEmail].filter (bgFailed bg)
          awaitedBackground := [] }

/-! ### AuthCallback.handleAuthCallback -/

/-- The URL-hash parameters the callback handler reads. -/
structure HashParams where
  typeParam : Option String
  access_token : Option String
  refresh_token : Option String
  error_description : Option String
deriving DecidableEq

/-- Session object held in SDK session responses (reduced to the user
email, the only field the handler inspects). -/
structure SessionData where
  userEmail : String
deriving DecidableEq

/-- Resolved value of `supabase.auth.setSession` or
`supabase.auth.getSession`: `{ data: { session }, error }` with the error
reduced to its message. -/
structure SessionRes where
  session : Option SessionData
  error : Option String
deriving DecidableEq

/-- Environment of external outcomes consumed by one run of the auth
callback handler, one oracle per call site. -/
structure CallbackEnv where
  recoverySetSessionRes : JsRes SessionRes
  recoveryGetSessionRes : JsRes SessionRes
  oauthGetSessionRes : JsRes SessionRes
  oauthSetSessionRes : JsRes SessionRes
  bootstrapAuthRes : JsRes Unit
deriving DecidableEq

/-- Observable effects of one callback run: the error message shown (if
any), the navigation scheduled through setTimeout as a (delay in ms,
target) pair, the navigation performed directly at the end of the
handler, and the token pairs passed to `setSession`. -/
structure CallbackRunOut where
  errorMsg : Option String
  scheduledNav : Option (Nat × String)
  navNow : Option String
  setSessionCalls : List (String × String)
deriving DecidableEq

/-- The catch block at the bottom of `handleAuthCallback`: show the
thrown message (or a generic one) and navigate to /login after 3 s. -/
def callbackOnThrow (m : Option String) (calls : List (String × String)) :
    CallbackRunOut :=
  { errorMsg := some (m.getD "Authentication failed. Please try again.")
    scheduledNav := some (3000, "/login")
    navNow := none
    setSessionCalls := calls }

/-- Recovery branch fallback: when tokens were absent from the hash or
`setSession` resolved without a session, look for an existing session;
with one, go to the new-password step, otherwise show the expired-link
message and navigate to /forgot-password after 3 s. -/
def recoveryFallback (env : CallbackEnv) (calls : List (String × String)) :
    CallbackRunOut :=
  match env.recoveryGetSessionRes with
  | .thrown m => callbackOnThrow m calls
  | .ok g =>
      if g.session.isSome then
        { errorMsg := none
          scheduledNav := none
          navNow := some "/forgot-password?step=3"
          setSessionCalls := calls }
      else
        { errorMsg :=
            some "Password reset link has expired or is invalid. Please request a new one."
          scheduledNav := some (3000, "/forgot-password")
          navNow := none
          setSessionCalls := calls }

/-- Tail of the OAuth branch, after the session and session error have
been determined. -/
def oauthFinish (env : CallbackEnv) (session : Option SessionData)
    (sessionError : Option String) (calls : List (String × String)) :
    CallbackRunOut :=
  if sessionError.isSome then
    { errorMsg := some "Failed to verify authentication. Please try again."
      scheduledNav := some (3000, "/login")
      navNow := none
      setSessionCalls := calls }
  else if session.isNone then
    { errorMsg := some "No session found. Redirecting to login..."
      scheduledNav := some (2000, "/login")
      navNow := none
      setSessionCalls := calls }
  else
    match env.bootstrapAuthRes with
    | .thrown m => callbackOnThrow m calls
    | .ok _ =>
        { errorMsg := none
          scheduledNav := none
          navNow := some "/dashboard"
          setSessionCalls := calls }

/-- OAuth / default branch of the callback: get the session, optionally
set it explicitly from the hash tokens, then finish. -/
def oauthFlow (hp : HashParams) (env : CallbackEnv) : CallbackRunOut :=
  match env.oauthGetSessionRes with
  | .thrown m => callbackOnThrow m []
  | .ok g =>
      match g.session, hp.access_token, hp.refresh_token with
      | none, some a, some r =>
          (match env.oauthSetSessionRes with
           | .thrown m => callbackOnThrow m [(a, r)]
           | .ok s =>
               if s.error.isNone && s.session.isSome then
                 oauthFinish env s.session none [(a, r)]
               else
                 oauthFinish env none s.error [(a, r)])
      | _, _, _ => oauthFinish env g.session g.error []

/-- Model of `AuthCallback.handleAuthCallback`: dispatch on the hash parameters to
the error, password-recovery or OAuth branch. -/
def handleAuthCallback (hp : HashParams) (env : CallbackEnv) : CallbackRunOut :=
  match hp.error_description with
  | some d =>
      { errorMsg := some d
        scheduledNav := some (3000, "/login")
        navNow := none
        setSessionCalls := [] }
  | none =>
      if hp.typeParam = some "recovery" then
        match hp.access_token, hp.refresh_token with
        | some a, some r =>
            (match env.recoverySetSessionRes with
             | .thrown m => callbackOnThrow m [(a, r)]
             | .ok s =>
                 if s.error.isSome then
                   { errorMsg :=
                       some "Password reset link has expired or is invalid. Please request a new one."
                     scheduledNav := some (3000, "/forgot-password")
                     navNow := none
                     setSessionCalls := [(a, r)] }
                 else if s.session.isSome then
                   { errorMsg := none
                     scheduledNav := none
                     navNow := some "/forgot-password?step=3"
                     setSessionCalls := [(a, r)] }
                 else recoveryFallback env [(a, r)])
        | _, _ => recoveryFallback env []
      else oauthFlow hp env

/-- Concrete environment where every SDK call resolves successfully. -/
def cbAllOkEnv : CallbackEnv :=
  ⟨.ok ⟨some ⟨"u@example.com"⟩, none⟩,
   .ok ⟨none, none⟩,
   .ok ⟨some ⟨"u@example.com"⟩, none⟩,
   .ok ⟨none, none⟩,
   .ok ()⟩

/-- A recovery hash that carries both tokens but also an
error_description parameter. -/
def recoveryHashWithError : HashParams :=
  ⟨some "recovery", some "tokenA", some "tokenB", some "otp_expired"⟩

/-- A clean recovery hash with both tokens and no error parameter. -/
def recoveryHashClean : HashParams :=
  ⟨some "recovery", some "tokenA", some "tokenB", none⟩

/-- Environment where the recovery `setSession` call resolves with an
error. -/
def cbSetSessionErrEnv : CallbackEnv :=
  ⟨.ok ⟨none, some "token expired"⟩,
   .ok ⟨none, none⟩,
   .ok ⟨none, none⟩,
   .ok ⟨none, none⟩,
   .ok ()⟩

/-! ### SecuritySettings.handleSubmit -/

/-- The three password form fields. -/
structure PasswordsForm where
  currentPassword : String
  newPassword : String
  confirmPassword : String
deriving DecidableEq

/-- The `{ error, success }` object returned by
`AuthService.changePassword`. -/
structure ChangePwReturn where
  error : Option String
  success : Option Bool
deriving DecidableEq

/-- Observable effects of one `SecuritySettings.handleSubmit` run: the
error and success messages set, any navigation scheduled through
setTimeout, and the delay after which the success message is cleared.
The component imports no navigation facility, so `scheduledNav` is none
on every path. -/
structure SubmitRunOut where
  errorMsg : Option String
  successMsg : Option String
  scheduledNav : Option (Nat × String)
  clearSuccessAfter : Option Nat
deriving DecidableEq

/-- Error outcome of `handleSubmit`: message set, nothing scheduled. -/
def submitErr (m : String) : SubmitRunOut :=
  { errorMsg := some m
    successMsg := none
    scheduledNav := none
    clearSuccessAfter := none }

/-- Whether a string contains a decimal digit (the `/\d/` test). -/
def containsDigit (s : String) : Bool :=
  s.data.any Char.isDigit

/-- Model of `SecuritySettings.handleSubmit`: client-side validation, then the
`changePassword` call; on failure or a thrown exception it sets an error
message and schedules nothing; on success it sets a success message and
schedules only its clearing after 5 s. -/
def secHandleSubmit (user : Option Unit) (pw : PasswordsForm)
    (resp : JsRes ChangePwReturn) : SubmitRunOut :=
  if user.isNone then submitErr "User not authenticated"
  else if pw.currentPassword = "" then submitErr "Current password is required"
  else if pw.newPassword = "" then submitErr "New password is required"
  else if pw.confirmPassword = "" then submitErr "Please confirm your new password"
  else if pw.newPassword ≠ pw.confirmPassword then
    submitErr "New passwords do not match"
  else if pw.newPassword.length < 6 then
    submitErr "Password must be at least 6 characters long"
  else if !containsDigit pw.newPassword then
    submitErr "Password must contain at least one number"
  else
    match resp with
    | .thrown _ => submitErr "Failed to change password. Please try again."
    | .ok r =>
        if r.success = some true then
          { errorMsg := none
            successMsg := some "Password changed successfully!"
            scheduledNav := none
            clearSuccessAfter := some 5000 }
        else submitErr (jsOrStr r.error "Failed to change password")

/-- A valid form whose `changePassword` call reports a failure. -/
def failingSubmitForm : PasswordsForm :=
  ⟨"oldpw1", "newpw123", "newpw123"⟩

/-! ### PublicRoute -/

/-- What `PublicRoute` renders: the loading screen, its public children,
or a redirect element. -/
inductive PublicRender where
  | loadScreen : PublicRender
  | children : PublicRender
  | redirect (target : String) : PublicRender
deriving DecidableEq

/-- Pages that carry their own inline loaders. -/
def pagesWithInlineLoaders : List String := ["/login", "/register"]

/-- Pages an unverified user may still reach. -/
def verificationPages : List String := ["/verify-email", "/resend-verification"]

/-- Default value of the redirectTo prop. -/
def publicRouteDefaultRedirect : String := "/app"

/-- Model of `PublicRoute`: gates public pages on the redux auth state and the
cached profile status. -/
def publicRoute (isAuthenticated isLoading : Bool) (profileStatus : Option String)
    (path : String) (stepParam : Option String) (redirectTo : String) :
    PublicRender :=
  let isPasswordRecoveryFlow :=
    path = "/forgot-password" ∧ stepParam = some "3"
  let hasInlineLoader := path ∈ pagesWithInlineLoaders
  if isLoading ∧ ¬hasInlineLoader then .loadScreen
  else if isAuthenticated ∧ profileStatus = some "active" then
    if isPasswordRecoveryFlow then .children else .redirect redirectTo
  else if isAuthenticated ∧ profileStatus = some "pending_verification" then
    if path ∈ verificationPages then .children else .redirect "/verify-email"
  else .children

/-! ### ReduxAuthGuard -/

/-- What `ReduxAuthGuard` renders: the checking-authentication screen,
nothing (while redirecting), or the protected children with or without
the phone-collection modal overlay. -/
inductive GuardRender where
  | loadScreen : GuardRender
  | nothing : GuardRender
  | content (modalShown : Bool) : GuardRender
deriving DecidableEq

/-- One `ReduxAuthGuard` render: what is rendered and where the guard
navigates, if anywhere. -/
structure GuardRunOut where
  render : GuardRender
  navTarget : Option String
deriving DecidableEq

/-- The check `profile?.phone && profile.phone.trim().length > 0`: the cached phone
is present, non-empty and not whitespace-only.  A missing profile is
folded into a missing phone. -/
def hasPhoneB (phone : Option String) : Bool :=
  jsTruthyOptStr phone && (jsTrim (phone.getD "")).length > 0

/-- Model of `ReduxAuthGuard`: loading screen until auth is ready, redirect to
/login when unauthenticated, otherwise the children with the mandatory
phone-collection modal overlaid when a truthy user id is present and the
cached phone is missing. -/
def reduxAuthGuard (isInitDone isAuthenticated : Bool)
    (profilePhone : Option String) (userId : Option String) : GuardRunOut :=
  if !isInitDone then ⟨.loadScreen, none⟩
  else if !isAuthenticated then ⟨.nothing, some "/login"⟩
  else ⟨.content (!hasPhoneB profilePhone && jsTruthyOptStr userId), none⟩

/-! ### authService.getUserProfile -/

/-- A row of the external users table, with the columns the profile query
selects. -/
structure UsersRow where
  id : String
  email : String
  first_name : String
  last_name : String
  phone_number : Option String
  role : String
  status : String
  suite_number : Option String
  avatar_url : Option String
  street_address : Option String
  city : Option String
  country : Option String
  postal_code : Option String
deriving DecidableEq

/-- The application-side `AuthUser` record built from a users row. -/
structure AuthUser where
  id : String
  email : String
  firstName : String
  lastName : String
  role : String
  phone : Option String
  suite_number : Option String
  status : String
  avatarUrl : Option String
  profileImage : Option String
  isEmailVerified : Option Bool
  accountStatus : Option String
  usShippingAddressId : Option String
  streetAddress : Option String
  city : Option String
  country : Option String
  postalCode : Option String
deriving DecidableEq

/-- Resolved value of the profile select query: `{ data, error }`. -/
structure ProfileQueryRes where
  row : Option UsersRow
  error : Option String
deriving DecidableEq

/-- Model of `AuthService.getUserProfile`: null on error, a thrown call or a
missing row, otherwise the `AuthUser` built column by column from the
row. -/
def getUserProfile (q : JsRes ProfileQueryRes) : Option AuthUser :=
  match q with
  | .thrown _ => none
  | .ok r =>
      if r.error.isSome then none
      else
        match r.row with
        | none => none
        | some d =>
            some
              { id := d.id
                email := d.email
                firstName := d.first_name
                lastName := d.last_name
                role := d.role
                phone := d.phone_number
                status := d.status
                suite_number := d.suite_number
                usShippingAddressId := none
                streetAddress := d.street_address
                city := d.city
                country := d.country
                postalCode := d.postal_code
                avatarUrl := d.avatar_url
                profileImage := d.avatar_url
                isEmailVerified := some true
                accountStatus := some d.status }

/-! ### authService.checkAccountStatus -/

/-- The row returned by the pre-login status query. -/
structure StatusRow where
  status : Option String
  first_name : Option String
deriving DecidableEq

/-- Outcome of the pre-login status query: the whole check threw, the
query resolved with an error, no row matched, or a row was found. -/
inductive StatusQuery where
  | thrown : StatusQuery
  | queryError (msg : String) : StatusQuery
  | noRow : StatusQuery
  | row (r : StatusRow) : StatusQuery
deriving DecidableEq

/-- The object `checkAccountStatus` returns. -/
structure StatusCheck where
  status : Option String
  canLogin : Bool
  message : Option String
  firstName : Option String
deriving DecidableEq

/-- The `Hi${firstName ? ' ' + firstName : ''}` greeting fragment. -/
def greetFragment (firstName : Option String) : String :=
  "Hi" ++ (if jsTruthyOptStr firstName then " " ++ firstName.getD "" else "")

/-- Model of `AuthService.checkAccountStatus`: on a query error, a thrown call or
no matching row it fails open (canLogin true, status null); on a row it
compares the lowercased status with the known states and blocks login
with a status-specific message whenever that status is not active. -/
def checkAccountStatus (q : StatusQuery) : StatusCheck :=
  match q with
  | .thrown => ⟨none, true, none, none⟩
  | .queryError _ => ⟨none, true, none, none⟩
  | .noRow => ⟨none, true, none, none⟩
  | .row r =>
      let accountStatus := r.status.map lowerStr
      let firstName := r.first_name
      if accountStatus = some "active" then
        ⟨accountStatus, true, none, firstName⟩
      else
        let hi := greetFragment firstName
        let message :=
          if accountStatus = some "inactive" then
            hi ++ ", your account is currently inactive. Please contact support@vanguardcargo.co to reactivate your account."
          else if accountStatus = some "suspended" then
            hi ++ ", your account has been suspended. Please contact support@vanguardcargo.co for assistance."
          else if accountStatus = some "reported" then
            hi ++ ", your account is currently under review. Please contact support@vanguardcargo.co for more information."
          else if accountStatus = some "pending_verification" then
            hi ++ ", please verify your email address before logging in. Check your inbox for the verification link."
          else
            hi ++ ", your account status does not allow login at this time. Please contact support@vanguardcargo.co for assistance."
        ⟨accountStatus, false, some message, firstName⟩

/-! ### authService.changePassword -/

/-- The user object returned by `supabase.auth.getUser`. -/
structure GetUserData where
  email : Option String
deriving DecidableEq

/-- Environment of external outcomes consumed by one `changePassword`
run: the current-user lookup, the verification sign-in (reduced to its
error message) and the password update (reduced to its error message). -/
structure ChangePwEnv where
  getUserRes : JsRes (Option GetUserData)
  signInVerifyRes : JsRes (Option String)
  updateUserRes : JsRes (Option String)
deriving DecidableEq

/-- Observable effects of one `changePassword` run: the returned
`{ error, success }` object, the (email, password) the verification
sign-in was called with, and the new password the update call was called
with, when those calls happened. -/
structure ChangePwRunOut where
  result : ChangePwReturn
  signInCalledWith : Option (String × String)
  updateCalledWith : Option String
deriving DecidableEq

/-- The value of `user?.email` under JavaScript truthiness: the email of the current
user when a user is present with a non-empty email. -/
def currentUserEmail : Option GetUserData → Option String
  | none => none
  | some u =>
      match u.email with
      | none => none
      | some e => if e = "" then none else some e

/-- Model of `AuthService.changePassword`: verify the current password by signing
in with it, and only after that sign-in succeeds invoke the password
update. -/
def changePassword (currentPassword newPassword : String)
    (env : ChangePwEnv) : ChangePwRunOut :=
  match env.getUserRes with
  | .thrown _ => ⟨⟨some "Failed to change password", some false⟩, none, none⟩
  | .ok u =>
      match currentUserEmail u with
      | none => ⟨⟨some "No authenticated user found", some false⟩, none, none⟩
      | some e =>
          match env.signInVerifyRes with
          | .thrown _ =>
              ⟨⟨some "Failed to change password", some false⟩,
               some (e, currentPassword), none⟩
          | .ok (some _) =>
              ⟨⟨some "Current password is incorrect", some false⟩,
               some (e, currentPassword), none⟩
          | .ok none =>
              match env.updateUserRes with
              | .thrown _ =>
                  ⟨⟨some "Failed to change password", some false⟩,
                   some (e, currentPassword), some newPassword⟩
              | .ok (some msg) =>
                  ⟨⟨some msg, some false⟩,
                   some (e, currentPassword), some newPassword⟩
              | .ok none =>
                  ⟨⟨none, some true⟩,
                   some (e, currentPassword), some newPassword⟩

/-- Sign-in verification succeeds and the update call reports an error in
this environment (used to exercise `changePassword`). -/
def changePwWrongCurrentEnv : ChangePwEnv :=
  ⟨.ok (some ⟨some "a@b.example"⟩), .ok (some "invalid credentials"), .ok none⟩

/-! ## Helper lemmas -/

/-- A string has length zero exactly when it is the empty string. -/
theorem stringLength_eq_zero_iff (t : String) : t.length = 0 ↔ t = "" := by
  cases t with
  | mk l =>
      constructor
      · intro h
        have hl : l = [] := List.length_eq_zero.mp h
        subst hl
        rfl
      · intro h
        have hl : l = [] := by
          have hd := congrArg String.data h
          simpa using hd
        subst hl
        rfl

/-- The orphan check `cleanupOrphanedAuthUser` returns false on every query outcome. -/
theorem cleanupOrphanedAuthUser_false (q : JsRes (Option Unit)) :
    cleanupOrphanedAuthUser q = false := by
  cases q with
  | ok o => cases o <;> rfl
  | thrown m => rfl

/-- The submit handler of the security settings form schedules no
navigation on any path. -/
theorem secHandleSubmit_no_nav (u : Option Unit) (pw : PasswordsForm)
    (resp : JsRes ChangePwReturn) :
    (secHandleSubmit u pw resp).scheduledNav = none := by
  unfold secHandleSubmit
  repeat' split
  all_goals rfl

/-- The callback catch block always schedules a navigation. -/
theorem callbackOnThrow_schedules (m : Option String)
    (cs : List (String × String)) :
    (callbackOnThrow m cs).scheduledNav = some (3000, "/login") := rfl

/-- Every error shown by the recovery fallback comes with a scheduled
navigation. -/
theorem recoveryFallback_error_schedules (env : CallbackEnv)
    (cs : List (String × String)) :
    (recoveryFallback env cs).errorMsg.isSome = true →
    (recoveryFallback env cs).scheduledNav.isSome = true := by
  cases hg : env.recoveryGetSessionRes with
  | thrown m => simp [recoveryFallback, hg, callbackOnThrow]
  | ok g =>
      by_cases hs : g.session.isSome = true <;>
        simp [recoveryFallback, hg, hs, callbackOnThrow]

/-- The recovery fallback leaves the trace of setSession calls it was
given unchanged. -/
theorem recoveryFallback_calls (env : CallbackEnv)
    (cs : List (String × String)) :
    (recoveryFallback env cs).setSessionCalls = cs := by
  cases hg : env.recoveryGetSessionRes with
  | thrown m => simp [recoveryFallback, hg, callbackOnThrow]
  | ok g =>
      by_cases hs : g.session.isSome = true <;>
        simp [recoveryFallback, hg, hs, callbackOnThrow]

/-- Every error shown by the OAuth branch tail comes with a scheduled
navigation. -/
theorem oauthFinish_error_schedules (env : CallbackEnv)
    (session : Option SessionData) (se : Option String)
    (cs : List (String × String)) :
    (oauthFinish env session se cs).errorMsg.isSome = true →
    (oauthFinish env session se cs).scheduledNav.isSome = true := by
  by_cases h1 : se.isSome = true
  · simp [oauthFinish, h1]
  · by_cases h2 : session.isNone = true
    · simp [oauthFinish, h1, h2]
    · cases hb : env.bootstrapAuthRes with
      | thrown m => simp [oauthFinish, h1, h2, hb, callbackOnThrow]
      | ok v => simp [oauthFinish, h1, h2, hb]

/-- Every error shown by the OAuth branch comes with a scheduled
navigation. -/
theorem oauthFlow_error_schedules (hp : HashParams) (env : CallbackEnv) :
    (oauthFlow hp env).errorMsg.isSome = true →
    (oauthFlow hp env).scheduledNav.isSome = true := by
  cases hg : env.oauthGetSessionRes with
  | thrown m => simp [oauthFlow, hg, callbackOnThrow]
  | ok g =>
      cases hgs : g.session with
      | some sd =>
          simpa [oauthFlow, hg, hgs] using
            oauthFinish_error_schedules env (some sd) g.error []
      | none =>
          cases ha : hp.access_token with
          | none =>
              simpa [oauthFlow, hg, hgs, ha] using
                oauthFinish_error_schedules env none g.error []
          | some a =>
              cases hr : hp.refresh_token with
              | none =>
                  simpa [oauthFlow, hg, hgs, ha, hr] using
                    oauthFinish_error_schedules env none g.error []
              | some r =>
                  cases hss : env.oauthSetSessionRes with
                  | thrown m =>
                      simp [oauthFlow, hg, hgs, ha, hr, hss, callbackOnThrow]
                  | ok s =>
                      by_cases hc : (s.error.isNone && s.session.isSome) = true
                      · simpa [oauthFlow, hg, hgs, ha, hr, hss, hc] using
                          oauthFinish_error_schedules env s.session none [(a, r)]
                      · simpa [oauthFlow, hg, hgs, ha, hr, hss, hc] using
                          oauthFinish_error_schedules env none s.error [(a, r)]

/-- Every error shown by the auth callback handler comes with a scheduled
navigation. -/
theorem handleAuthCallback_error_schedules (hp : HashParams)
    (env : CallbackEnv) :
    (handleAuthCallback hp env).errorMsg.isSome = true →
    (handleAuthCallback hp env).scheduledNav.isSome = true := by
  cases hd : hp.error_description with
  | some d => simp [handleAuthCallback, hd]
  | none =>
      by_cases ht : hp.typeParam = some "recovery"
      · cases ha : hp.access_token with
        | none =>
            simpa [handleAuthCallback, hd, ht, ha] using
              recoveryFallback_error_schedules env []
        | some a =>
            cases hr : hp.refresh_token with
            | none =>
                simpa [handleAuthCallback, hd, ht, ha, hr] using
                  recoveryFallback_error_schedules env []
            | some r =>
                cases hs : env.recoverySetSessionRes with
                | thrown m =>
                    simp [handleAuthCallback, hd, ht, ha, hr, hs, callbackOnThrow]
                | ok s =>
                    by_cases he : s.error.isSome = true
                    · simp [handleAuthCallback, hd, ht, ha, hr, hs, he]
                    · by_cases hss : s.session.isSome = true
                      · simp [handleAuthCallback, hd, ht, ha, hr, hs, he, hss]
                      · simpa [handleAuthCallback, hd, ht, ha, hr, hs, he, hss] using
                          recoveryFallback_error_schedules env [(a, r)]
      · simpa [handleAuthCallback, hd, ht] using oauthFlow_error_schedules hp env

/-- The cached phone fails the guard check exactly when it is absent,
empty, or whitespace-only. -/
theorem hasPhoneB_eq_false_iff (phone : Option String) :
    hasPhoneB phone = false ↔
      (phone = none ∨ ∃ s, phone = some s ∧ jsTrim s = "") := by
  cases phone with
  | none => simp [hasPhoneB, jsTruthyOptStr]
  | some s =>
      constructor
      · intro h
        by_cases hs : s = ""
        · exact Or.inr ⟨s, rfl, by rw [hs]; rfl⟩
        · refine Or.inr ⟨s, rfl, ?_⟩
          have h2 : decide (0 < (jsTrim s).length) = false := by
            have hb : hasPhoneB (some s) = decide (0 < (jsTrim s).length) := by
              simp [hasPhoneB, jsTruthyOptStr, hs]
            rw [hb] at h
            exact h
          have h3 : ¬(0 < (jsTrim s).length) := of_decide_eq_false h2
          exact (stringLength_eq_zero_iff (jsTrim s)).mp (by omega)
      · rintro (hc | ⟨t, ht, htrim⟩)
        · exact absurd hc (by simp)
        · injection ht with ht2
          rw [← ht2] at htrim
          have h0 : (jsTrim s).length = 0 := by rw [htrim]; rfl
          simp [hasPhoneB, jsTruthyOptStr, h0]

/-! ## Claim theorems -/

/-- Claim C1 (amended): `signUp` returns a non-null user together with a
null error exactly when the external auth sign-up call succeeds and the
profile-creation RPC succeeds with a success result; in every other case
it returns a null user, with a non-null error except when the auth call
resolved with neither a user nor an error, in which case the null SDK
error is passed through. -/
theorem signUp_result_characterization (env : SignUpEnv) :
    (((signUpRun env).1.user ≠ none ∧ (signUpRun env).1.error = none) ↔
      (signUpAuthOkB env = true ∧ signUpRpcOkB env = true)) ∧
    (¬(signUpAuthOkB env = true ∧ signUpRpcOkB env = true) →
      (signUpRun env).1.user = none ∧
      ((signUpRun env).1.error = none ↔
        env.authSignUpRes = JsRes.ok ⟨none, none⟩)) := by
  obtain ⟨pq, au, rpc⟩ := env
  cases au with
  | thrown m => simp [signUpRun, signUpAuthOkB, signUpRpcOkB]
  | ok a =>
      obtain ⟨usr, aerr⟩ := a
      cases aerr with
      | some e => cases usr <;> simp [signUpRun, signUpAuthOkB]
      | none =>
          cases usr with
          | none => simp [signUpRun, signUpAuthOkB]
          | some uu =>
              cases rpc with
              | thrown m => simp [signUpRun, signUpAuthOkB, signUpRpcOkB]
              | ok r =>
                  obtain ⟨res, rerr⟩ := r
                  cases rerr with
                  | some m => simp [signUpRun, signUpAuthOkB, signUpRpcOkB]
                  | none =>
                      cases res with
                      | none => simp [signUpRun, signUpAuthOkB, signUpRpcOkB]
                      | some pr =>
                          cases hpr : pr.success <;>
                            simp [signUpRun, signUpAuthOkB, signUpRpcOkB, hpr]

/-- Witness for claim C1: in the environment where the profile RPC fails,
the amended characterization yields a null user and a non-null error. -/
theorem signUp_result_characterization_witness :
    (signUpRun signUpRpcFailEnv).1.user = none ∧
    ((signUpRun signUpRpcFailEnv).1.error = none ↔
      signUpRpcFailEnv.authSignUpRes = JsRes.ok ⟨none, none⟩) :=
  (signUp_result_characterization signUpRpcFailEnv).2 (by decide)

/-- Counterexample for claim C1 as stated: when the SDK sign-up call
resolves with neither a user nor an error, `signUp` returns user null
together with a null (not non-null) error, although the success
condition does not hold. -/
theorem signUp_nullError_counterexample :
    signUpAuthOkB signUpNullNullEnv = false ∧
    (signUpRun signUpNullNullEnv).1.user = none ∧
    (signUpRun signUpNullNullEnv).1.error = none := by decide

/-- Claim C4: when the auth user was created and the profile RPC fails,
`signUp` returns an error, invokes the RPC exactly once, never deletes
the created auth user, and the pre-registration orphan check returns
false on every input. -/
theorem signUp_no_retry_no_recovery (env : SignUpEnv)
    (hAuth : signUpAuthOkB env = true) (hRpc : signUpRpcOkB env = false) :
    (signUpRun env).1.error ≠ none ∧
    (signUpRun env).2.count ExtCall.createProfileRpc = 1 ∧
    ExtCall.deleteAuthUser ∉ (signUpRun env).2 ∧
    ∀ q, cleanupOrphanedAuthUser q = false := by
  obtain ⟨pq, au, rpc⟩ := env
  cases au with
  | thrown m => simp [signUpAuthOkB] at hAuth
  | ok a =>
      obtain ⟨usr, aerr⟩ := a
      cases aerr with
      | some e => simp [signUpAuthOkB] at hAuth
      | none =>
          cases usr with
          | none => simp [signUpAuthOkB] at hAuth
          | some uu =>
              refine ?_
              cases rpc with
              | thrown m =>
                  exact ⟨by simp [signUpRun], by simp [signUpRun],
                    by simp [signUpRun], cleanupOrphanedAuthUser_false⟩
              | ok r =>
                  obtain ⟨res, rerr⟩ := r
                  cases rerr with
                  | some m =>
                      exact ⟨by simp [signUpRun], by simp [signUpRun],
                        by simp [signUpRun], cleanupOrphanedAuthUser_false⟩
                  | none =>
                      cases res with
                      | none =>
                          exact ⟨by simp [signUpRun], by simp [signUpRun],
                            by simp [signUpRun], cleanupOrphanedAuthUser_false⟩
                      | some pr =>
                          have hfail : pr.success = false := by
                            simpa [signUpRpcOkB] using hRpc
                          exact ⟨by simp [signUpRun, hfail],
                            by simp [signUpRun, hfail],
                            by simp [signUpRun, hfail],
                            cleanupOrphanedAuthUser_false⟩

/-- Witness for claim C4: the RPC-failure environment satisfies the
hypotheses, and the run returns an error without a deletion call. -/
theorem signUp_no_retry_no_recovery_witness :
    signUpAuthOkB signUpRpcFailEnv = true ∧
    signUpRpcOkB signUpRpcFailEnv = false ∧
    ((signUpRun signUpRpcFailEnv).1.error ≠ none ∧
     (signUpRun signUpRpcFailEnv).2.count ExtCall.createProfileRpc = 1 ∧
     ExtCall.deleteAuthUser ∉ (signUpRun signUpRpcFailEnv).2 ∧
     ∀ q, cleanupOrphanedAuthUser q = false) :=
  ⟨by decide, by decide,
   signUp_no_retry_no_recovery signUpRpcFailEnv (by decide) (by decide)⟩

/-- Claim C3: the value `signIn` returns, and the set of background calls
it fires, are independent of the outcomes of the three fire-and-forget
background calls, and no background call is awaited before `signIn`
returns. -/
theorem signIn_independent_of_background (sdk : JsRes SignInSdkRes)
    (bg1 bg2 : BgOutcomes) :
    (signInRun sdk bg1).result = (signInRun sdk bg2).result ∧
    (signInRun sdk bg1).firedBackground = (signInRun sdk bg2).firedBackground ∧
    (signInRun sdk bg1).awaitedBackground = [] ∧
    (signInRun sdk bg2).awaitedBackground = [] := by
  cases sdk with
  | thrown m => simp [signInRun]
  | ok d =>
      by_cases h : (d.error.isSome || d.user.isNone) = true <;>
        simp [signInRun, h]

/-- Claim C2 (amended): every error branch of the auth callback handler
sets a user-visible message and schedules a navigation after a fixed
delay, while the error branches of the security settings form set a
message but schedule no navigation at all. -/
theorem authUI_error_handling (hp : HashParams) (env : CallbackEnv)
    (u : Option Unit) (pw : PasswordsForm) (resp : JsRes ChangePwReturn) :
    ((handleAuthCallback hp env).errorMsg.isSome = true →
      (handleAuthCallback hp env).scheduledNav.isSome = true) ∧
    (secHandleSubmit u pw resp).scheduledNav = none :=
  ⟨handleAuthCallback_error_schedules hp env, secHandleSubmit_no_nav u pw resp⟩

/-- Witness for claim C2: a callback error branch schedules a delayed
navigation while a failing settings submission schedules none. -/
theorem authUI_error_handling_witness :
    ((handleAuthCallback recoveryHashWithError cbAllOkEnv).scheduledNav.isSome = true) ∧
    (secHandleSubmit (some ()) failingSubmitForm
      (JsRes.ok ⟨some "Current password is incorrect", some false⟩)).scheduledNav = none :=
  ⟨(authUI_error_handling recoveryHashWithError cbAllOkEnv (some ())
      failingSubmitForm (JsRes.ok ⟨some "Current password is incorrect", some false⟩)).1
      (by decide),
   (authUI_error_handling recoveryHashWithError cbAllOkEnv (some ())
      failingSubmitForm (JsRes.ok ⟨some "Current password is incorrect", some false⟩)).2⟩

/-- Counterexample for claim C2 as stated: a failing password change in
the security settings form sets an error message but schedules no
navigation after any delay. -/
theorem securitySettings_noRedirect_counterexample :
    (secHandleSubmit (some ()) failingSubmitForm
      (JsRes.ok ⟨some "Current password is incorrect", some false⟩)).errorMsg.isSome = true ∧
    (secHandleSubmit (some ()) failingSubmitForm
      (JsRes.ok ⟨some "Current password is incorrect", some false⟩)).scheduledNav = none := by
  decide

/-- Claim C5 (amended): for every hash with type recovery, both tokens
and no error_description parameter, the handler calls setSession with
exactly those tokens; when setSession resolves with a session it
navigates to the new-password step, and when setSession resolves with an
error it shows the expired-link message and schedules navigation to
/forgot-password after 3 seconds. -/
theorem recovery_token_exchange (hp : HashParams) (env : CallbackEnv)
    (a r : String)
    (hType : hp.typeParam = some "recovery")
    (hA : hp.access_token = some a)
    (hR : hp.refresh_token = some r)
    (hE : hp.error_description = none) :
    (handleAuthCallback hp env).setSessionCalls = [(a, r)] ∧
    (∀ sd, env.recoverySetSessionRes = JsRes.ok ⟨some sd, none⟩ →
      (handleAuthCallback hp env).navNow = some "/forgot-password?step=3") ∧
    (∀ s e, env.recoverySetSessionRes = JsRes.ok s → s.error = some e →
      (handleAuthCallback hp env).errorMsg =
        some "Password reset link has expired or is invalid. Please request a new one." ∧
      (handleAuthCallback hp env).scheduledNav = some (3000, "/forgot-password")) := by
  refine ⟨?_, ?_, ?_⟩
  · cases hs : env.recoverySetSessionRes with
    | thrown m => simp [handleAuthCallback, hE, hType, hA, hR, hs, callbackOnThrow]
    | ok s =>
        by_cases he : s.error.isSome = true
        · simp [handleAuthCallback, hE, hType, hA, hR, hs, he]
        · by_cases hss : s.session.isSome = true
          · simp [handleAuthCallback, hE, hType, hA, hR, hs, he, hss]
          · simpa [handleAuthCallback, hE, hType, hA, hR, hs, he, hss] using
              recoveryFallback_calls env [(a, r)]
  · intro sd hsd
    simp [handleAuthCallback, hE, hType, hA, hR, hsd]
  · intro s e hs he
    simp [handleAuthCallback, hE, hType, hA, hR, hs, he]

/-- Witness for claim C5: with a clean recovery hash and a successful
setSession, the handler navigates to the new-password step. -/
theorem recovery_token_exchange_witness :
    (handleAuthCallback recoveryHashClean cbAllOkEnv).navNow =
      some "/forgot-password?step=3" :=
  (recovery_token_exchange recoveryHashClean cbAllOkEnv "tokenA" "tokenB"
      rfl rfl rfl rfl).2.1 ⟨"u@example.com"⟩ rfl

/-- Counterexample for claim C5 as stated: a hash carrying type recovery
and both tokens but also an error_description never reaches setSession;
the handler shows the error and schedules navigation to /login instead. -/
theorem recovery_errorDescription_counterexample :
    recoveryHashWithError.typeParam = some "recovery" ∧
    recoveryHashWithError.access_token.isSome = true ∧
    recoveryHashWithError.refresh_token.isSome = true ∧
    (handleAuthCallback recoveryHashWithError cbAllOkEnv).setSessionCalls = [] ∧
    (handleAuthCallback recoveryHashWithError cbAllOkEnv).scheduledNav =
      some (3000, "/login") := by
  decide

/-- Claim C6: for an authenticated, non-loading user whose cached profile
status is active, PublicRoute redirects to the redirectTo route (default
/app) except in the password-recovery flow (path /forgot-password with
step 3), where the public children render instead. -/
theorem publicRoute_active_gating (isAuth : Bool) (status : Option String)
    (path : String) (step : Option String) (rt : String)
    (hAuth : isAuth = true) (hStatus : status = some "active") :
    publicRoute isAuth false status path step rt =
      (if path = "/forgot-password" ∧ step = some "3" then PublicRender.children
       else PublicRender.redirect rt) ∧
    publicRouteDefaultRedirect = "/app" := by
  subst hAuth hStatus
  refine ⟨?_, rfl⟩
  unfold publicRoute
  simp

/-- Witness for claim C6: an authenticated active user on /login is
redirected to the default /app, and the same user in the recovery flow
sees the children. -/
theorem publicRoute_active_gating_witness :
    publicRoute true false (some "active") "/login" none "/app" =
      PublicRender.redirect "/app" ∧
    publicRoute true false (some "active") "/forgot-password" (some "3") "/app" =
      PublicRender.children := by
  have h1 := (publicRoute_active_gating true (some "active") "/login" none "/app"
    rfl rfl).1
  have h2 := (publicRoute_active_gating true (some "active") "/forgot-password"
    (some "3") "/app" rfl rfl).1
  rw [h1, h2]
  constructor
  · decide
  · decide

/-- Claim C7: ReduxAuthGuard shows the loading screen until auth is
ready; once ready and unauthenticated it renders nothing and redirects
to /login; once ready and authenticated it renders the children with the
phone-collection modal overlaid exactly when a truthy user id is present
and the cached phone is absent, empty, or whitespace-only. -/
theorem reduxAuthGuard_phone_gating (isInit isAuth : Bool)
    (phone userId : Option String) :
    (isInit = false →
      reduxAuthGuard isInit isAuth phone userId = ⟨GuardRender.loadScreen, none⟩) ∧
    (isInit = true → isAuth = false →
      reduxAuthGuard isInit isAuth phone userId =
        ⟨GuardRender.nothing, some "/login"⟩) ∧
    (isInit = true → isAuth = true →
      ∃ m, reduxAuthGuard isInit isAuth phone userId =
          ⟨GuardRender.content m, none⟩ ∧
        (m = true ↔ (jsTruthyOptStr userId = true ∧
          (phone = none ∨ ∃ s, phone = some s ∧ jsTrim s = "")))) := by
  refine ⟨?_, ?_, ?_⟩
  · intro h; subst h; rfl
  · intro h1 h2; subst h1; subst h2; rfl
  · intro h1 h2
    subst h1; subst h2
    refine ⟨!hasPhoneB phone && jsTruthyOptStr userId, rfl, ?_⟩
    constructor
    · intro hm
      have h3 := (Bool.and_eq_true _ _).mp hm
      refine ⟨h3.2, (hasPhoneB_eq_false_iff phone).mp ?_⟩
      have := h3.1
      cases hpb : hasPhoneB phone with
      | false => rfl
      | true => rw [hpb] at this; exact absurd this (by decide)
    · rintro ⟨hu, hp⟩
      have hpb : hasPhoneB phone = false := (hasPhoneB_eq_false_iff phone).mpr hp
      rw [hpb, hu]
      rfl

/-- Witness for claim C7: with a whitespace-only cached phone and a
truthy user id, the guard renders the children with the modal overlaid. -/
theorem reduxAuthGuard_phone_gating_witness :
    reduxAuthGuard true true (some "  ") (some "user-1") =
      ⟨GuardRender.content true, none⟩ := by
  obtain ⟨m, hm, hiff⟩ :=
    (reduxAuthGuard_phone_gating true true (some "  ") (some "user-1")).2.2 rfl rfl
  have hmt : m = true := hiff.mpr ⟨by decide, Or.inr ⟨"  ", rfl, by decide⟩⟩
  rw [hmt] at hm
  exact hm

/-- Claim C8: on a successfully fetched row, getUserProfile returns an
AuthUser whose fields equal the corresponding columns of the users row
(id, email, first_name, last_name, role, phone_number, status,
suite_number, street_address, city, country, postal_code, avatar_url). -/
theorem getUserProfile_passthrough (row : UsersRow) :
    ∃ u, getUserProfile (JsRes.ok ⟨some row, none⟩) = some u ∧
      u.id = row.id ∧ u.email = row.email ∧ u.firstName = row.first_name ∧
      u.lastName = row.last_name ∧ u.role = row.role ∧
      u.phone = row.phone_number ∧ u.status = row.status ∧
      u.suite_number = row.suite_number ∧
      u.streetAddress = row.street_address ∧ u.city = row.city ∧
      u.country = row.country ∧ u.postalCode = row.postal_code ∧
      u.avatarUrl = row.avatar_url := by
  refine ⟨{ id := row.id, email := row.email, firstName := row.first_name,
            lastName := row.last_name, role := row.role,
            phone := row.phone_number, status := row.status,
            suite_number := row.suite_number, usShippingAddressId := none,
            streetAddress := row.street_address, city := row.city,
            country := row.country, postalCode := row.postal_code,
            avatarUrl := row.avatar_url, profileImage := row.avatar_url,
            isEmailVerified := some true, accountStatus := some row.status },
          ?_, rfl, rfl, rfl, rfl, rfl, rfl, rfl, rfl, rfl, rfl, rfl, rfl, rfl⟩
  simp [getUserProfile]

/-- Claim C9: checkAccountStatus fails open: on a query error, a thrown
call or no matching row it allows login with a null status; it blocks
login, with a message, exactly when a row is found whose lowercased
status is not active; on an active status it allows login with that
status. -/
theorem checkAccountStatus_fails_open (q : StatusQuery) :
    ((q = StatusQuery.thrown ∨ (∃ m, q = StatusQuery.queryError m) ∨
        q = StatusQuery.noRow) →
      (checkAccountStatus q).canLogin = true ∧
      (checkAccountStatus q).status = none) ∧
    (∀ r, q = StatusQuery.row r → r.status.map lowerStr = some "active" →
      (checkAccountStatus q).canLogin = true ∧
      (checkAccountStatus q).status = some "active") ∧
    ((checkAccountStatus q).canLogin = false ↔
      ∃ r, q = StatusQuery.row r ∧ r.status.map lowerStr ≠ some "active") ∧
    ((checkAccountStatus q).canLogin = false →
      (checkAccountStatus q).message.isSome = true) := by
  cases q with
  | thrown => simp [checkAccountStatus]
  | queryError m => simp [checkAccountStatus]
  | noRow => simp [checkAccountStatus]
  | row r =>
      by_cases h : r.status.map lowerStr = some "active"
      · simp [checkAccountStatus, h]
        exact Option.map_eq_some'.mp h
      · simp [checkAccountStatus, h]
        intro x hx hlx
        exact h (by rw [hx, Option.map_some', hlx])

/-- Witness for claim C9: a suspended row blocks login with a message,
and a missing row allows login. -/
theorem checkAccountStatus_fails_open_witness :
    ((checkAccountStatus StatusQuery.noRow).canLogin = true ∧
      (checkAccountStatus StatusQuery.noRow).status = none) ∧
    ((checkAccountStatus (StatusQuery.row ⟨some "Suspended", some "Ama"⟩)).canLogin = true ∧
      (checkAccountStatus (StatusQuery.row ⟨some "Suspended", some "Ama"⟩)).status =
        some "active") = False := by
  constructor
  · exact (checkAccountStatus_fails_open StatusQuery.noRow).1 (Or.inr (Or.inr rfl))
  · simp only [eq_iff_iff, iff_false]
    intro hcontra
    have h := (checkAccountStatus_fails_open
      (StatusQuery.row ⟨some "Suspended", some "Ama"⟩)).2.2.1
    have hfalse : (checkAccountStatus
        (StatusQuery.row ⟨some "Suspended", some "Ama"⟩)).canLogin = false := by
      decide
    rw [hfalse] at hcontra
    exact Bool.false_ne_true hcontra.1

/-- Claim C10: changePassword verifies the current password first: when
the user lookup yields no truthy email it returns the
no-authenticated-user error without calling sign-in or update; it calls
the verification sign-in with the user email and the supplied current
password; when that sign-in fails it returns the incorrect-password
error without calling update; and the update call happens only when the
verification sign-in succeeded. -/
theorem changePassword_verifies_before_update (cp np : String)
    (env : ChangePwEnv) :
    (∀ u, env.getUserRes = JsRes.ok u → currentUserEmail u = none →
      changePassword cp np env =
        ⟨⟨some "No authenticated user found", some false⟩, none, none⟩) ∧
    (∀ u e, env.getUserRes = JsRes.ok u → currentUserEmail u = some e →
      (changePassword cp np env).signInCalledWith = some (e, cp)) ∧
    (∀ u e err, env.getUserRes = JsRes.ok u → currentUserEmail u = some e →
      env.signInVerifyRes = JsRes.ok (some err) →
      (changePassword cp np env).result =
        ⟨some "Current password is incorrect", some false⟩ ∧
      (changePassword cp np env).updateCalledWith = none) ∧
    ((changePassword cp np env).updateCalledWith ≠ none →
      ∃ u e, env.getUserRes = JsRes.ok u ∧ currentUserEmail u = some e ∧
        env.signInVerifyRes = JsRes.ok none) := by
  refine ⟨?_, ?_, ?_, ?_⟩
  · intro u hgu hue
    simp [changePassword, hgu, hue]
  · intro u e hgu hue
    cases hsi : env.signInVerifyRes with
    | thrown m => simp [changePassword, hgu, hue, hsi]
    | ok so =>
        cases so with
        | some err => simp [changePassword, hgu, hue, hsi]
        | none =>
            cases hup : env.updateUserRes with
            | thrown m => simp [changePassword, hgu, hue, hsi, hup]
            | ok uo => cases uo <;> simp [changePassword, hgu, hue, hsi, hup]
  · intro u e err hgu hue hsi
    simp [changePassword, hgu, hue, hsi]
  · intro hupd
    cases hgu : env.getUserRes with
    | thrown m => simp [changePassword, hgu] at hupd
    | ok u =>
        cases hue : currentUserEmail u with
        | none => simp [changePassword, hgu, hue] at hupd
        | some e =>
            cases hsi : env.signInVerifyRes with
            | thrown m => simp [changePassword, hgu, hue, hsi] at hupd
            | ok so =>
                cases so with
                | some err => simp [changePassword, hgu, hue, hsi] at hupd
                | none =>
                    refine ⟨u, e, ?_, hue, ?_⟩ <;> first | exact hgu | exact hsi | rfl

/-- Witness for claim C10: with an authenticated user and a failed
verification sign-in, the update is never invoked and the
incorrect-password error is returned. -/
theorem changePassword_verifies_before_update_witness :
    (changePassword "current1" "next1" changePwWrongCurrentEnv).result =
      ⟨some "Current password is incorrect", some false⟩ ∧
    (changePassword "current1" "next1" changePwWrongCurrentEnv).updateCalledWith =
      none :=
  (changePassword_verifies_before_update "current1" "next1"
      changePwWrongCurrentEnv).2.2.1
    (some ⟨some "a@b.example"⟩) "a@b.example" "invalid credentials"
    rfl (by decide) rfl

end VanguardCargo
